import Mathlib

/-!
Verification of the log-based cron-job status inference engine
(`check_job_logs` / `monitor_jobs` in `cron_monitor.py`).

The embedding models:
  * log lines as `String`s; Python substring tests (`x in line`) and
    `str.lower()` as executable char-list functions;
  * the timestamp regex search and `datetime.strptime` validation as an
    executable matcher producing epoch seconds (proleptic Gregorian
    calendar, days-from-civil algorithm);
  * `datetime` values as `Int` epoch seconds; the minute durations of
    the source (seconds divided by 60) handled exactly, with threshold
    comparisons in the equivalent integer-seconds form (justified by
    `minutesQ_gt_iff`) and one-decimal rendering by exact integer
    rounding;
  * the filesystem as a `FileState` (missing, readable with lines, or
    an I/O failure whose exception text is carried along);
  * the `try ... except` boundary: a `ValueError` raised by `strptime`
    on a regex-matched but calendar-invalid timestamp aborts the scan
    and is rendered as a "Log check failed" verdict;
  * the batch loop as an `Except`-valued recursion: its active-job
    test dereferences a name attribute on the dictionary entries of
    the active-jobs source, which raises `AttributeError` whenever the
    active list is nonempty; that exception is outside the per-job
    handler and aborts the whole batch with no records.
-/

/-- Substring match of `needle` at the head of `hay` (char lists). -/
def chHead : List Char → List Char → Bool
  | [], _ => true
  | _ :: _, [] => false
  | n :: ns, h :: hs => n == h && chHead ns hs

/-- Substring containment on char lists; models Python `needle in hay`. -/
def chContains : List Char → List Char → Bool
  | [], needle => chHead needle []
  | c :: t, needle => chHead needle (c :: t) || chContains t needle

/-- Substring containment on strings; models Python `needle in hay`. -/
def sContains (hay needle : String) : Bool :=
  chContains hay.data needle.data

/-- ASCII lower-casing of one character, as `str.lower` acts on the
log lines in play. -/
def lowerCh (c : Char) : Char :=
  if 'A' ≤ c && c ≤ 'Z' then Char.ofNat (c.toNat + 32) else c

/-- Models Python `line.lower()` on the ASCII range. -/
def pyLowerS (s : String) : String :=
  ⟨s.data.map lowerCh⟩

/-- Python truthiness of an optional string (`None` and `""` are falsy). -/
def optTruthy : Option String → Bool
  | none => false
  | some s => !(s == "")

/-- Digit value of an ASCII digit character. -/
def dval (c : Char) : Nat := c.toNat - 48

/-- ASCII whitespace, as the regex `\s` sees it in these logs. -/
def isWs (c : Char) : Bool :=
  c == ' ' || c == '\t' || c == '\n' || c == '\r' || c == '\x0b' || c == '\x0c'

/-- Consume exactly two digit characters, returning their value. -/
def take2 : List Char → Option (Nat × List Char)
  | a :: b :: rest =>
    if a.isDigit && b.isDigit then some (dval a * 10 + dval b, rest) else none
  | _ => none

/-- Consume exactly four digit characters, returning their value. -/
def take4 : List Char → Option (Nat × List Char)
  | a :: b :: c :: d :: rest =>
    if a.isDigit && b.isDigit && c.isDigit && d.isDigit then
      some (((dval a * 10 + dval b) * 10 + dval c) * 10 + dval d, rest)
    else none
  | _ => none

/-- Consume one expected literal character. -/
def lit (ch : Char) : List Char → Option (List Char)
  | c :: rest => if c == ch then some rest else none
  | [] => none

/-- Consume one or more whitespace characters (the regex `\s+`,
maximal munch, which is what backtracking yields here since a digit
must follow). -/
def ws1 : List Char → Option (List Char)
  | c :: rest => if isWs c then some (rest.dropWhile isWs) else none
  | [] => none

/-- The six numeric fields captured by the timestamp regex. -/
structure TsParts where
  y : Nat
  mo : Nat
  d : Nat
  h : Nat
  mi : Nat
  s : Nat
deriving DecidableEq

/-- Match the timestamp regex
four digits, dash, two digits, dash, two digits, whitespace run,
two digits, colon, two digits, colon, two digits
anchored at the head of the character list. -/
def matchTsAt (cs : List Char) : Option TsParts := do
  let (y, cs) ← take4 cs
  let cs ← lit '-' cs
  let (mo, cs) ← take2 cs
  let cs ← lit '-' cs
  let (d, cs) ← take2 cs
  let cs ← ws1 cs
  let (h, cs) ← take2 cs
  let cs ← lit ':' cs
  let (mi, cs) ← take2 cs
  let cs ← lit ':' cs
  let (s, _) ← take2 cs
  pure ⟨y, mo, d, h, mi, s⟩

/-- Leftmost match of the timestamp regex, as `re.search` finds it. -/
def searchTs : List Char → Option TsParts
  | [] => none
  | c :: rest =>
    match matchTsAt (c :: rest) with
    | some p => some p
    | none => searchTs rest

/-- Gregorian leap-year test. -/
def isLeap (y : Nat) : Bool :=
  y % 4 == 0 && (y % 100 != 0 || y % 400 == 0)

/-- Days in a month of the proleptic Gregorian calendar. -/
def daysInMonth (y m : Nat) : Nat :=
  if m == 2 then (if isLeap y then 29 else 28)
  else if m == 4 || m == 6 || m == 9 || m == 11 then 30
  else 31

/-- The validation `datetime.strptime` performs on the captured text:
a real calendar date and a time of day in range.  Captured text that
matches the search regex but fails this check raises `ValueError`. -/
def validParts (p : TsParts) : Bool :=
  1 ≤ p.y && 1 ≤ p.mo && p.mo ≤ 12 && 1 ≤ p.d && p.d ≤ daysInMonth p.y p.mo &&
  p.h ≤ 23 && p.mi ≤ 59 && p.s ≤ 59

/-- Days since 1970-01-01 of a proleptic Gregorian date
(days-from-civil algorithm; all intermediate values are nonnegative
for the validated years). -/
def daysFromCivil (p : TsParts) : Int :=
  let y : Int := if p.mo ≤ 2 then (p.y : Int) - 1 else (p.y : Int)
  let era : Int := y / 400
  let yoe : Int := y - era * 400
  let mp : Int := ((p.mo : Int) + 9) % 12
  let doy : Int := (153 * mp + 2) / 5 + (p.d : Int) - 1
  let doe : Int := yoe * 365 + yoe / 4 - yoe / 100 + doy
  era * 146097 + doe - 719468

/-- Epoch seconds of a parsed timestamp; subtraction of two such
values equals `timedelta.total_seconds()` of the datetime difference. -/
def toEpoch (p : TsParts) : Int :=
  daysFromCivil p * 86400 + (p.h : Int) * 3600 + (p.mi : Int) * 60 + (p.s : Int)

/-- Outcome of the per-line timestamp extraction: the regex found no
match, or it matched text that `strptime` rejects (a `ValueError`), or
a parsed timestamp. -/
inductive TsResult
  | noMatch
  | bad
  | ok (t : Int)
deriving DecidableEq

/-- Timestamp extraction for one line: `re.search` for the timestamp
pattern, then `datetime.strptime` on the captured text. -/
def extractTs (line : String) : TsResult :=
  match searchTs line.data with
  | none => .noMatch
  | some p => if validParts p then .ok (toEpoch p) else .bad

/-- Job configuration (`CronJobConfig` pydantic model). -/
structure CronJobConfig where
  name : String
  pattern : String
  max_duration : Int
  log_file : String
  expected_output : Option String
deriving DecidableEq

/-- State of the configured log file as the checker sees it. -/
inductive FileState
  | missing
  | readable (lines : List String)
  | unreadable (err : String)

/-- A status verdict: the dictionary returned by `check_job_logs`. -/
structure Verdict where
  status : String
  message : String
deriving DecidableEq

/-- Mutable state of the reverse scan loop: the recorded start and end
timestamps, the expected-output flag, and the loop variable `line`
(which Python leaks past the loop and the failure test later reads). -/
structure ScanState where
  job_start : Option Int
  job_end : Option Int
  last_output : Bool
  line : Option String
deriving DecidableEq

/-- Outcome of one loop iteration: continue scanning, break out of the
loop, or raise (a `strptime` failure aborting the whole check). -/
inductive StepOut
  | cont (st : ScanState)
  | stop (st : ScanState)
  | fail (cause : String)

/-- The state carried by a non-raising step outcome. -/
def stepState : StepOut → Option ScanState
  | .cont s => some s
  | .stop s => some s
  | .fail _ => none

/-- The in-window event classification of one line: a line containing
"started" (case-insensitively) records the start timestamp; otherwise
a line containing "completed" or "failed" records the end timestamp
and, when the configured expected output appears in the same line,
sets the output flag. -/
def recordEvent (cfg : CronJobConfig) (st : ScanState) (l : String) (ts : Int) : ScanState :=
  if sContains (pyLowerS l) "started" then
    { st with job_start := some ts }
  else if sContains (pyLowerS l) "completed" || sContains (pyLowerS l) "failed" then
    { st with job_end := some ts,
              last_output := st.last_output ||
                (optTruthy cfg.expected_output && sContains l (cfg.expected_output.getD "")) }
  else st

/-- One iteration of the reverse scan over a line: bind the loop
variable, require the configured pattern as a substring, extract a
timestamp (skipping the line when the regex finds none, raising when
`strptime` rejects the capture), discard timestamps more than 24 hours
old, classify the event, and break once both a start and an end have
been recorded. -/
def scanStep (cfg : CronJobConfig) (now : Int) (st : ScanState) (l : String) : StepOut :=
  let st1 : ScanState := { st with line := some l }
  if sContains l cfg.pattern then
    match extractTs l with
    | .noMatch => .cont st1
    | .bad => .fail "invalid time data"
    | .ok ts =>
      if now - ts ≤ 86400 then
        let st2 := recordEvent cfg st1 l ts
        if st2.job_start.isSome && st2.job_end.isSome then .stop st2 else .cont st2
      else .cont st1
  else .cont st1

/-- The scan loop over the (already reversed) tail of the log. -/
def scanLoop (cfg : CronJobConfig) (now : Int) : List String → ScanState → Except String ScanState
  | [], st => .ok st
  | l :: rest, st =>
    match scanStep cfg now st l with
    | .fail c => .error c
    | .stop st2 => .ok st2
    | .cont st2 => scanLoop cfg now rest st2

/-- Initial scan state: nothing recorded, loop variable unbound. -/
def initScan : ScanState := ⟨none, none, false, none⟩

/-- The last 100 lines of the file (`readlines()[-100:]`). -/
def tail100 (l : List String) : List String := l.drop (l.length - 100)

/-- The full scan of a log: newest line first over the 100-line tail. -/
def scanOf (cfg : CronJobConfig) (lines : List String) (now : Int) : Except String ScanState :=
  scanLoop cfg now (tail100 lines).reverse initScan

/-- Round the quotient of `a` by a positive `b` to the nearest
integer, ties to even; stands in for the rounding Python's one-decimal
float formatting performs. -/
def rheDiv (a b : Int) : Int :=
  let f := Int.fdiv a b
  let r := a - b * f
  if 2 * r < b then f
  else if 2 * r > b then f + 1
  else if f % 2 = 0 then f else f + 1

/-- Models the Python rendering of the duration
`secs.total_seconds() / 60` with one-decimal float formatting,
including the sign handling of negative values that round to zero.
The tenths digit of `secs / 60` is obtained by exact integer rounding
of `secs * 10 / 60`. -/
def fmt1min (secs : Int) : String :=
  let t : Int := rheDiv (secs * 10) 60
  let a := t.natAbs
  let core := toString (a / 10) ++ "." ++ toString (a % 10)
  if secs < 0 then "-" ++ core else core

/-- Minutes between two epoch-second instants, as an exact rational:
`(a - b).total_seconds() / 60`. -/
def minutesQ (a b : Int) : ℚ := ((a - b : Int) : ℚ) / 60

/-- The comparison `duration > max_duration` of the source, with the
duration in minutes, holds exactly when the duration in seconds
exceeds sixty times the threshold; the decision table below uses the
right-hand form so that it evaluates by integer arithmetic. -/
lemma minutesQ_gt_iff (a b m : Int) : minutesQ a b > (m : ℚ) ↔ a - b > 60 * m := by
  have h60 : (0 : ℚ) < 60 := by norm_num
  have hcast : ((60 * m : Int) : ℚ) = (m : ℚ) * 60 := by push_cast; ring
  rw [gt_iff_lt, minutesQ, lt_div_iff₀ h60, ← hcast, Int.cast_lt, gt_iff_lt]

/-- The decision table evaluated after the scan, including the failure
test on the leaked loop variable `line`.  Duration comparisons are the
source's minute comparisons in the equivalent seconds form of
`minutesQ_gt_iff`. -/
def verdictOf (cfg : CronJobConfig) (now : Int) (st : ScanState) : Verdict :=
  match st.job_start, st.job_end with
  | none, _ => ⟨"warning", "No executions found in the last 24 hours"⟩
  | some js, some je =>
    if sContains (pyLowerS (st.line.getD "")) "failed" then
      ⟨"error", "Job failed after " ++ fmt1min (je - js) ++ " minutes"⟩
    else if optTruthy cfg.expected_output && !st.last_output then
      ⟨"warning", "Expected output not found in logs"⟩
    else if je - js > 60 * cfg.max_duration then
      ⟨"warning", "Last job took " ++ fmt1min (je - js) ++
        " minutes (max: " ++ toString cfg.max_duration ++ ")"⟩
    else
      ⟨"ok", "Last run completed in " ++ fmt1min (je - js) ++ " minutes"⟩
  | some js, none =>
    if now - js > 60 * cfg.max_duration then
      ⟨"error", "Job possibly stuck - running for " ++ fmt1min (now - js) ++ " minutes"⟩
    else
      ⟨"running", "In progress for " ++ fmt1min (now - js) ++ " minutes"⟩

/-- `check_job_logs`: the per-job inference operation.  A missing file
and an unreadable file are reported as errors; a `strptime` failure
during the scan surfaces through the exception handler; otherwise the
decision table is applied to the scan result. -/
def check_job_logs (cfg : CronJobConfig) (fs : FileState) (now : Int) : Verdict :=
  match fs with
  | .missing => ⟨"error", "Log file not found: " ++ cfg.log_file⟩
  | .unreadable e => ⟨"error", "Log check failed: " ++ e⟩
  | .readable lines =>
    match scanOf cfg lines now with
    | .error c => ⟨"error", "Log check failed: " ++ c⟩
    | .ok st => verdictOf cfg now st

/-- One record of the batch result list. -/
structure MonitorResult where
  name : String
  status : String
  message : String
  running : Bool
deriving DecidableEq

/-- The active-job test of the batch loop: an any-generator comparing
each active job's name attribute against the configured name.  The
active-jobs source returns plain dictionaries, and attribute access on
a dictionary raises AttributeError; the generator evaluates its body
as soon as the active list is nonempty, so the test raises for every
nonempty active list and only an empty list yields False.  `active`
carries the names of the running simulated jobs. -/
def is_running_of (active : List String) (name : String) : Except String Bool :=
  match active with
  | [] => .ok false
  | _ :: _ => .error "AttributeError: dict object has no attribute name"

/-- The record the batch builds for one job: the verdict of
`check_job_logs` plus the running flag. -/
def mkResult (cfg : CronJobConfig) (fs : FileState) (running : Bool) (now : Int) :
    MonitorResult :=
  let v := check_job_logs cfg fs now
  ⟨cfg.name, v.status, v.message, running⟩

/-- `monitor_jobs`: for each configured job in order, run the check
(which never raises) on the job's own log file and then the
active-job test; the AttributeError raised by that test whenever the
active list is nonempty propagates uncaught, aborting the whole batch
with no records. -/
def monitor_jobs : List CronJobConfig → (String → FileState) → List String → Int →
    Except String (List MonitorResult)
  | [], _, _, _ => .ok []
  | c :: cs, env, active, now =>
    match is_running_of active c.name with
    | .error e => .error e
    | .ok r =>
      match monitor_jobs cs env active now with
      | .error e => .error e
      | .ok rest => .ok (mkResult c (env c.log_file) r now :: rest)

/-! Concrete job configuration and log lines used by the witnesses and
counterexamples, matching the spec's end-to-end scenario. -/

/-- The backup job of the spec's end-to-end scenario. -/
def cfgB : CronJobConfig := ⟨"backup", "backup.sh", 30, "backup.log", none⟩

/-- Wall-clock instant 2024-01-05 10:10:00. -/
def now0 : Int := 1704449400

/-- Epoch seconds of 2024-01-05 10:00:00. -/
def e1000 : Int := 1704448800

/-- Epoch seconds of 2024-01-05 10:05:00. -/
def e1005 : Int := 1704449100

/-- Epoch seconds of 2024-01-05 09:25:00. -/
def e0925 : Int := 1704446700

/-- A start line at 10:00:00. -/
def logStart0 : String := "2024-01-05 10:00:00 - backup.sh started"

/-- A completion line at 10:05:00. -/
def logEnd5 : String := "2024-01-05 10:05:00 - backup.sh completed"

/-- A failure line at 10:05:00, as the simulated job writes it. -/
def logFail5 : String := "2024-01-05 10:05:00 - backup.sh failed: Error during execution"

/-- A start line whose timestamp uses the Mon DD HH:MM:SS format. -/
def logMon : String := "Jan 05 10:00:00 - backup.sh started"

/-- A start line whose timestamp uses the MM/DD/YYYY HH:MM:SS format. -/
def logSlash : String := "01/05/2024 10:00:00 - backup.sh started"

/-- A line announcing the job with the word beginning, not started. -/
def logBegin : String := "2024-01-05 10:00:00 - backup.sh beginning nightly run"

/-- A line ending the job with the word finished, not completed. -/
def logFin : String := "2024-01-05 10:05:00 - backup.sh finished work"

/-- A start line at 09:25:00, 45 minutes before `now0`. -/
def logStart0925 : String := "2024-01-05 09:25:00 - backup.sh started"

/-- A start line at 10:05:00, 5 minutes before `now0`. -/
def logStart1005 : String := "2024-01-05 10:05:00 - backup.sh started"

/-- A start line more than 24 hours older than `now0`. -/
def logStale : String := "2024-01-04 09:00:00 - backup.sh started"

/-- A line whose timestamp text matches the regex but is rejected by
the calendar validation, raising a `ValueError`. -/
def logBadTs : String := "2024-99-99 10:00:00 - backup.sh started"

/-- A line containing both a start keyword (inside restarted) and an
end keyword. -/
def logRestart : String := "2024-01-05 10:00:00 - backup.sh restarted and completed"

/-! Helper lemmas about single scan steps. -/

/-- Both loop outcomes around the break test carry the same state. -/
lemma stepState_branch (b : Bool) (s : ScanState) :
    stepState (if b then StepOut.stop s else StepOut.cont s) = some s := by
  cases b <;> rfl

/-- A line without the configured pattern only rebinds the loop
variable. -/
lemma scanStep_noPattern (cfg : CronJobConfig) (now : Int) (st : ScanState) (l : String)
    (hp : sContains l cfg.pattern = false) :
    scanStep cfg now st l = .cont { st with line := some l } := by
  simp [scanStep, hp]

/-- A line where the timestamp regex finds no match is skipped for
timing purposes: only the loop variable is rebound. -/
lemma scanStep_noTs (cfg : CronJobConfig) (now : Int) (st : ScanState) (l : String)
    (ht : extractTs l = .noMatch) :
    scanStep cfg now st l = .cont { st with line := some l } := by
  cases hpv : sContains l cfg.pattern with
  | false => simp [scanStep, hpv]
  | true => simp [scanStep, hpv, ht]

/-- A line whose timestamp is more than 24 hours old is discarded:
only the loop variable is rebound. -/
lemma scanStep_stale (cfg : CronJobConfig) (now : Int) (st : ScanState) (l : String) (ts : Int)
    (ht : extractTs l = .ok ts) (hw : ¬ (now - ts ≤ 86400)) :
    scanStep cfg now st l = .cont { st with line := some l } := by
  cases hpv : sContains l cfg.pattern with
  | false => simp [scanStep, hpv]
  | true => simp [scanStep, hpv, ht, hw]

/-- An in-window matching line is classified by `recordEvent` and the
loop continues or breaks with that state. -/
lemma stepState_inWindow (cfg : CronJobConfig) (now : Int) (st : ScanState) (l : String) (ts : Int)
    (hp : sContains l cfg.pattern = true) (ht : extractTs l = .ok ts)
    (hw : now - ts ≤ 86400) :
    stepState (scanStep cfg now st l) =
      some (recordEvent cfg { st with line := some l } l ts) := by
  have h : scanStep cfg now st l =
      (let st2 := recordEvent cfg { st with line := some l } l ts
       if st2.job_start.isSome && st2.job_end.isSome then .stop st2 else .cont st2) := by
    simp [scanStep, hp, ht, hw]
  rw [h]
  exact stepState_branch _ _

/-- The start field after classification: set exactly when the line
contains the keyword started. -/
lemma recordEvent_job_start (cfg : CronJobConfig) (st : ScanState) (l : String) (ts : Int) :
    (recordEvent cfg st l ts).job_start =
      (if sContains (pyLowerS l) "started" then some ts else st.job_start) := by
  cases hs : sContains (pyLowerS l) "started" with
  | true => simp [recordEvent, hs]
  | false =>
    cases he : (sContains (pyLowerS l) "completed" || sContains (pyLowerS l) "failed") with
    | true => simp [recordEvent, hs, he]
    | false => simp [recordEvent, hs, he]

/-- The end field after classification: set exactly when the line is
not a start and contains completed or failed. -/
lemma recordEvent_job_end (cfg : CronJobConfig) (st : ScanState) (l : String) (ts : Int) :
    (recordEvent cfg st l ts).job_end =
      (if sContains (pyLowerS l) "started" then st.job_end
       else if sContains (pyLowerS l) "completed" || sContains (pyLowerS l) "failed" then some ts
       else st.job_end) := by
  cases hs : sContains (pyLowerS l) "started" with
  | true => simp [recordEvent, hs]
  | false =>
    cases he : (sContains (pyLowerS l) "completed" || sContains (pyLowerS l) "failed") with
    | true => simp [recordEvent, hs, he]
    | false => simp [recordEvent, hs, he]

/-- The expected-output flag after classification of a start line is
unchanged. -/
lemma recordEvent_start_all (cfg : CronJobConfig) (st : ScanState) (l : String) (ts : Int)
    (hs : sContains (pyLowerS l) "started" = true) :
    recordEvent cfg st l ts = { st with job_start := some ts } := by
  simp [recordEvent, hs]

/-- Reduce the checker to the decision table once the scan result is
known. -/
lemma check_readable (cfg : CronJobConfig) (lines : List String) (now : Int) (st : ScanState)
    (hscan : scanOf cfg lines now = .ok st) :
    check_job_logs cfg (.readable lines) now = verdictOf cfg now st := by
  have h : check_job_logs cfg (.readable lines) now =
      (match scanOf cfg lines now with
       | .error c => ⟨"error", "Log check failed: " ++ c⟩
       | .ok st2 => verdictOf cfg now st2) := rfl
  rw [h, hscan]

/-- Per-line condition for the staleness claim: every pattern-matching
line parses cleanly and every pattern-matching started line is more
than 24 hours old. -/
def staleOnlyB (cfg : CronJobConfig) (now : Int) (l : String) : Bool :=
  !(sContains l cfg.pattern) ||
    (match extractTs l with
     | .bad => false
     | .noMatch => true
     | .ok ts => !(sContains (pyLowerS l) "started") || decide (86400 < now - ts))

/-- A line satisfying the staleness condition never records a start
event and never aborts or breaks the scan. -/
lemma staleStep (cfg : CronJobConfig) (now : Int) (st : ScanState) (l : String)
    (hl : staleOnlyB cfg now l = true) (h0 : st.job_start = none) :
    ∃ st2, scanStep cfg now st l = .cont st2 ∧ st2.job_start = none := by
  cases hpv : sContains l cfg.pattern with
  | false => exact ⟨_, scanStep_noPattern cfg now st l hpv, by simp [h0]⟩
  | true =>
    unfold staleOnlyB at hl
    rw [hpv] at hl
    simp only [Bool.not_true, Bool.false_or] at hl
    cases hext : extractTs l with
    | noMatch => exact ⟨_, scanStep_noTs cfg now st l hext, by simp [h0]⟩
    | bad => rw [hext] at hl; simp at hl
    | ok ts =>
      rw [hext] at hl
      by_cases hw : now - ts ≤ 86400
      · have hns : sContains (pyLowerS l) "started" = false := by
          have hnotstale : ¬ (86400 < now - ts) := not_lt.mpr hw
          rcases (Bool.or_eq_true _ _).mp hl with h | h
          · simpa using h
          · exact absurd (of_decide_eq_true h) hnotstale
        have hjs : (recordEvent cfg { st with line := some l } l ts).job_start = none := by
          rw [recordEvent_job_start]
          simp [hns, h0]
        have hstep : scanStep cfg now st l =
            .cont (recordEvent cfg { st with line := some l } l ts) := by
          have h : scanStep cfg now st l =
              (let st2 := recordEvent cfg { st with line := some l } l ts
               if st2.job_start.isSome && st2.job_end.isSome then .stop st2 else .cont st2) := by
            simp [scanStep, hpv, hext, hw]
          rw [h]
          simp [hjs]
        exact ⟨_, hstep, hjs⟩
      · exact ⟨_, scanStep_stale cfg now st l ts hext hw, by simp [h0]⟩

/-- Over a list of lines all satisfying the staleness condition, the
scan terminates normally with no recorded start. -/
lemma scanLoop_no_start (cfg : CronJobConfig) (now : Int) :
    ∀ (L : List String) (st : ScanState),
      L.all (staleOnlyB cfg now) = true → st.job_start = none →
      ∃ st2, scanLoop cfg now L st = .ok st2 ∧ st2.job_start = none := by
  intro L
  induction L with
  | nil => exact fun st _ h0 => ⟨st, rfl, h0⟩
  | cons l rest ih =>
    intro st hall h0
    rw [List.all_cons, Bool.and_eq_true] at hall
    obtain ⟨st1, hstep, h1⟩ := staleStep cfg now st l hall.1 h0
    have hred : scanLoop cfg now (l :: rest) st = scanLoop cfg now rest st1 := by
      simp [scanLoop, hstep]
    rw [hred]
    exact ih st1 hall.2 h1

/-- The decision table reports the absence branch when no start event
was recorded. -/
lemma verdictOf_no_start (cfg : CronJobConfig) (now : Int) (st : ScanState)
    (h0 : st.job_start = none) :
    verdictOf cfg now st = ⟨"warning", "No executions found in the last 24 hours"⟩ := by
  simp [verdictOf, h0]

/-- C1: the claim (and the spec table) require that a run whose
recorded end event indicates failure is reported as an error
mentioning Job failed; the code instead tests the word failed on the
loop variable left over after the scan breaks, which for a
time-ordered log is the start line.  At the input below the job
started at 10:00:00 and wrote a failed line at 10:05:00, yet the
verdict is ok with a completion message, not the failure error the
claim requires. -/
theorem cronC1_code_eval :
    check_job_logs cfgB (.readable [logStart0, logFail5]) now0 =
      ⟨"ok", "Last run completed in 5.0 minutes"⟩ ∧
    check_job_logs cfgB (.readable [logStart0, logFail5]) now0 ≠
      ⟨"error", "Job failed after 5.0 minutes"⟩ :=
  ⟨by decide, by decide⟩

/-- C2 counterexample: the claim says lines whose timestamps use the
Mon DD or MM/DD/YYYY formats are assigned their timestamps; in the
code the single regex finds no match on them, and a log consisting of
such a fresh start line yields the no-executions warning, i.e. the
line was skipped. -/
theorem cronC2_counterexample :
    extractTs logMon = .noMatch ∧
    extractTs logSlash = .noMatch ∧
    check_job_logs cfgB (.readable [logMon]) now0 =
      ⟨"warning", "No executions found in the last 24 hours"⟩ ∧
    check_job_logs cfgB (.readable [logSlash]) now0 =
      ⟨"warning", "No executions found in the last 24 hours"⟩ :=
  ⟨by decide, by decide, by decide, by decide⟩

/-- C2 amended: only the YYYY-MM-DD HH:MM:SS format is recognised; a
line the regex does not match is skipped for timing purposes (only the
loop variable is rebound), a line bearing a format-one timestamp is
assigned it, and the two other formats named by the spec match no
pattern. -/
theorem cronC2_amended :
    (∀ (cfg : CronJobConfig) (now : Int) (l : String) (rest : List String) (st : ScanState),
       extractTs l = .noMatch →
       scanLoop cfg now (l :: rest) st = scanLoop cfg now rest { st with line := some l }) ∧
    extractTs logStart0 = .ok 1704448800 ∧
    extractTs logMon = .noMatch ∧
    extractTs logSlash = .noMatch := by
  refine ⟨?_, by decide, by decide, by decide⟩
  intro cfg now l rest st ht
  simp [scanLoop, scanStep_noTs cfg now st l ht]

/-- C2 witness: the skip rule applied to the Mon DD line. -/
theorem cronC2_witness :
    scanLoop cfgB now0 [logMon] initScan =
      scanLoop cfgB now0 [] { initScan with line := some logMon } :=
  cronC2_amended.1 cfgB now0 logMon [] initScan (by decide)

/-- C5: a missing log file yields the error verdict whose message
contains the configured path, for every job configuration and every
current time. -/
theorem cronC5_missing (cfg : CronJobConfig) (now : Int) :
    check_job_logs cfg .missing now =
      ⟨"error", "Log file not found: " ++ cfg.log_file⟩ := rfl

/-- C3 counterexample: the claim says a line containing beginning (and
not started) is classified as a start, and a line containing finished
(and not completed or failed) as an end.  In the code neither keyword
is recognised: a fresh log whose only line says beginning yields the
no-executions warning instead of a running verdict, and a started plus
finished pair is reported as still in progress from the start line
rather than as a completed run. -/
theorem cronC3_counterexample :
    check_job_logs cfgB (.readable [logBegin]) now0 =
      ⟨"warning", "No executions found in the last 24 hours"⟩ ∧
    check_job_logs cfgB (.readable [logStart0, logFin]) now0 =
      ⟨"running", "In progress for 10.0 minutes"⟩ ∧
    check_job_logs cfgB (.readable [logStart0, logFin]) now0 ≠
      ⟨"ok", "Last run completed in 5.0 minutes"⟩ :=
  ⟨by decide, by decide, by decide⟩

/-- C3 amended: for an in-window, pattern-matching, timestamped line
the classification keywords are exactly started for the start event
and, in the else branch, completed or failed for the end event;
beginning and finished are not recognised. -/
theorem cronC3_amended (cfg : CronJobConfig) (now : Int) (st : ScanState) (l : String) (ts : Int)
    (hp : sContains l cfg.pattern = true) (ht : extractTs l = .ok ts)
    (hw : now - ts ≤ 86400) :
    ∃ st2, stepState (scanStep cfg now st l) = some st2 ∧
      st2.job_start = (if sContains (pyLowerS l) "started" then some ts else st.job_start) ∧
      st2.job_end = (if sContains (pyLowerS l) "started" then st.job_end
                     else if sContains (pyLowerS l) "completed" || sContains (pyLowerS l) "failed"
                     then some ts else st.job_end) := by
  refine ⟨recordEvent cfg { st with line := some l } l ts,
    stepState_inWindow cfg now st l ts hp ht hw, ?_, ?_⟩
  · rw [recordEvent_job_start]
  · rw [recordEvent_job_end]

/-- C3 witness: the amended classification applied to the beginning
line, which records nothing, and checked against the keyword tests. -/
theorem cronC3_witness :
    ∃ st2, stepState (scanStep cfgB now0 initScan logBegin) = some st2 ∧
      st2.job_start = (if sContains (pyLowerS logBegin) "started" then some e1000
                       else initScan.job_start) ∧
      st2.job_end = (if sContains (pyLowerS logBegin) "started" then initScan.job_end
                     else if sContains (pyLowerS logBegin) "completed" ||
                          sContains (pyLowerS logBegin) "failed"
                     then some e1000 else initScan.job_end) :=
  cronC3_amended cfgB now0 initScan logBegin e1000 (by decide) (by decide) (by decide)

/-- C4 counterexample: the claim says that with several in-window
started lines and no end event the most recent start is used, which at
the input below, two starts 45 and 5 minutes old with threshold 30,
would give a running verdict of 5.0 minutes.  The code overwrites the
recorded start with every older start line scanned, so the verdict is
computed from the 45-minute-old start and reports the job as stuck. -/
theorem cronC4_counterexample :
    check_job_logs cfgB (.readable [logStart0925, logStart1005]) now0 =
      ⟨"error", "Job possibly stuck - running for 45.0 minutes"⟩ ∧
    check_job_logs cfgB (.readable [logStart0925, logStart1005]) now0 ≠
      ⟨"running", "In progress for 5.0 minutes"⟩ :=
  ⟨by decide, by decide⟩

/-- C4 amended: an in-window started line always overwrites the
recorded start event, whatever was recorded from newer lines, so with
several in-window started lines and no end event the verdict uses the
oldest scanned start; at the concrete three-start input the verdict is
computed from the oldest start, 45 minutes old. -/
theorem cronC4_amended :
    (∀ (cfg : CronJobConfig) (now : Int) (st : ScanState) (l : String) (ts : Int),
       sContains l cfg.pattern = true → extractTs l = .ok ts → now - ts ≤ 86400 →
       sContains (pyLowerS l) "started" = true →
       stepState (scanStep cfg now st l) = some { st with line := some l, job_start := some ts }) ∧
    check_job_logs cfgB (.readable [logStart0925, logStart0, logStart1005]) now0 =
      ⟨"error", "Job possibly stuck - running for 45.0 minutes"⟩ := by
  refine ⟨?_, by decide⟩
  intro cfg now st l ts hp ht hw hs
  rw [stepState_inWindow cfg now st l ts hp ht hw, recordEvent_start_all cfg _ l ts hs]

/-- C4 witness: the overwrite rule applied to a state that already
holds a newer recorded start. -/
theorem cronC4_witness :
    stepState (scanStep cfgB now0 ⟨some e1005, none, false, some logStart1005⟩ logStart0925) =
      some ⟨some e0925, none, false, some logStart0925⟩ :=
  cronC4_amended.1 cfgB now0 ⟨some e1005, none, false, some logStart1005⟩ logStart0925 e0925
    (by decide) (by decide) (by decide) (by decide)

/-- C6: when the scan records a start at time T and no end event, the
verdict is running with the elapsed duration when now minus T is at
most the threshold, and the stuck error with the same duration when it
strictly exceeds it; the threshold comparison in minutes is taken in
the equivalent seconds form of `minutesQ_gt_iff` and the duration is
rendered to one decimal. -/
theorem cronC6_no_end (cfg : CronJobConfig) (lines : List String) (now T : Int) (st : ScanState)
    (hscan : scanOf cfg lines now = .ok st)
    (hs : st.job_start = some T) (he : st.job_end = none) :
    (now - T ≤ 60 * cfg.max_duration →
       check_job_logs cfg (.readable lines) now =
         ⟨"running", "In progress for " ++ fmt1min (now - T) ++ " minutes"⟩) ∧
    (now - T > 60 * cfg.max_duration →
       check_job_logs cfg (.readable lines) now =
         ⟨"error", "Job possibly stuck - running for " ++ fmt1min (now - T) ++ " minutes"⟩) := by
  rw [check_readable cfg lines now st hscan]
  constructor
  · intro h
    simp [verdictOf, hs, he, not_lt.mpr h]
  · intro h
    simp [verdictOf, hs, he, h]

/-- C6 witness: a single fresh start line, ten minutes old with a
thirty-minute threshold, reports running for 10.0 minutes. -/
theorem cronC6_witness :
    check_job_logs cfgB (.readable [logStart0]) now0 =
      ⟨"running", "In progress for 10.0 minutes"⟩ :=
  ((cronC6_no_end cfgB [logStart0] now0 e1000 ⟨some e1000, none, false, some logStart0⟩
      rfl rfl rfl).1 (by decide)).trans (by decide)

/-- C7: when the scan records a start at T0 and an end at a later T1,
the line the scan stopped at does not contain the word failed, no
expected output is configured, and the run duration is within the
threshold (seconds form of `minutesQ_gt_iff`), the verdict is ok with
the run duration rendered to one decimal. -/
theorem cronC7_completed_ok (cfg : CronJobConfig) (lines : List String) (now T0 T1 : Int)
    (st : ScanState)
    (hscan : scanOf cfg lines now = .ok st)
    (hs : st.job_start = some T0) (he : st.job_end = some T1) (h01 : T0 < T1)
    (hnf : sContains (pyLowerS (st.line.getD "")) "failed" = false)
    (hexp : cfg.expected_output = none)
    (hd : T1 - T0 ≤ 60 * cfg.max_duration) :
    check_job_logs cfg (.readable lines) now =
      ⟨"ok", "Last run completed in " ++ fmt1min (T1 - T0) ++ " minutes"⟩ := by
  rw [check_readable cfg lines now st hscan]
  simp [verdictOf, hs, he, hnf, hexp, optTruthy, not_lt.mpr hd]

/-- C7 witness: the spec's end-to-end scenario, two lines five minutes
apart, reports ok with 5.0 minutes. -/
theorem cronC7_witness :
    check_job_logs cfgB (.readable [logStart0, logEnd5]) now0 =
      ⟨"ok", "Last run completed in 5.0 minutes"⟩ :=
  (cronC7_completed_ok cfgB [logStart0, logEnd5] now0 e1000 e1005
      ⟨some e1000, some e1005, false, some logStart0⟩ rfl rfl rfl (by decide)
      (by decide) rfl (by decide)).trans (by decide)

/-- C8: a pattern-matching line whose timestamp is more than 24 hours
old is discarded entirely, only rebinding the loop variable; and a log
tail on which every pattern-matching line parses cleanly and every
started line is stale yields the no-executions warning, exactly as if
those lines were absent. -/
theorem cronC8_stale (cfg : CronJobConfig) (now : Int) :
    (∀ (st : ScanState) (l : String) (ts : Int),
       extractTs l = .ok ts → 86400 < now - ts →
       scanStep cfg now st l = .cont { st with line := some l }) ∧
    (∀ lines : List String,
       (tail100 lines).all (staleOnlyB cfg now) = true →
       check_job_logs cfg (.readable lines) now =
         ⟨"warning", "No executions found in the last 24 hours"⟩) := by
  constructor
  · intro st l ts ht hstale
    exact scanStep_stale cfg now st l ts ht (not_le.mpr hstale)
  · intro lines hall
    have hallr : ((tail100 lines).reverse).all (staleOnlyB cfg now) = true := by
      rw [List.all_reverse]; exact hall
    obtain ⟨st2, hsc, h0⟩ := scanLoop_no_start cfg now (tail100 lines).reverse initScan hallr rfl
    have hscan : scanOf cfg lines now = .ok st2 := hsc
    rw [check_readable cfg lines now st2 hscan, verdictOf_no_start cfg now st2 h0]

/-- C8 witness: a start line from the previous day, 25 hours and 10
minutes old, is treated as absent. -/
theorem cronC8_witness :
    check_job_logs cfgB (.readable [logStale]) now0 =
      ⟨"warning", "No executions found in the last 24 hours"⟩ :=
  (cronC8_stale cfgB now0).2 [logStale] (by decide)

/-- A scan aborted by a timestamp parse failure surfaces through the
exception handler of the checker. -/
lemma check_scan_error (cfg : CronJobConfig) (lines : List String) (now : Int) (c : String)
    (h : scanOf cfg lines now = .error c) :
    check_job_logs cfg (.readable lines) now = ⟨"error", "Log check failed: " ++ c⟩ := by
  have hred : check_job_logs cfg (.readable lines) now =
      (match scanOf cfg lines now with
       | .error c2 => ⟨"error", "Log check failed: " ++ c2⟩
       | .ok st2 => verdictOf cfg now st2) := rfl
  rw [hred, h]

/-- With no simulated job active, the batch completes and builds one
record per configured job from that job's own configuration and its
own log file state. -/
lemma monitor_jobs_no_active (cfgs : List CronJobConfig) (env : String → FileState) (now : Int) :
    monitor_jobs cfgs env [] now =
      .ok (cfgs.map (fun c => mkResult c (env c.log_file) false now)) := by
  induction cfgs with
  | nil => rfl
  | cons c cs ih => simp [monitor_jobs, is_running_of, ih]

/-- With at least one configured job and at least one active simulated
job, the batch aborts with the AttributeError of the active-job test,
whatever the filesystem holds. -/
lemma monitor_jobs_active_abort (c : CronJobConfig) (cs : List CronJobConfig)
    (env : String → FileState) (a : String) (act : List String) (now : Int) :
    monitor_jobs (c :: cs) env (a :: act) now =
      .error "AttributeError: dict object has no attribute name" := rfl

/-- C9: every call of the checker returns a verdict with one of the
four statuses, and an unreadable file and a scan aborted by a
timestamp parse failure both surface as the Log check failed error
carrying the cause, so inference itself never raises.  In the batch:
with no simulated job active the batch completes with one record per
job built from that job's own configuration and file state; with a
job configured and a simulated job active the batch aborts with the
AttributeError of the active-job test, for every filesystem alike, so
no job's log state can cause or prevent the abort; and whenever two
batch runs over filesystems that agree on a job's own log file both
return records, that job's record is the same in both, so a check
failure of one job changes no other job's record. -/
theorem cronC9_totality :
    (∀ (cfg : CronJobConfig) (fs : FileState) (now : Int),
       (check_job_logs cfg fs now).status ∈ (["ok", "warning", "error", "running"] : List String)) ∧
    (∀ (cfg : CronJobConfig) (e : String) (now : Int),
       check_job_logs cfg (.unreadable e) now = ⟨"error", "Log check failed: " ++ e⟩) ∧
    (∀ (cfg : CronJobConfig) (lines : List String) (now : Int) (c : String),
       scanOf cfg lines now = .error c →
       check_job_logs cfg (.readable lines) now = ⟨"error", "Log check failed: " ++ c⟩) ∧
    (∀ (cfgs : List CronJobConfig) (env : String → FileState) (now : Int),
       monitor_jobs cfgs env [] now =
         .ok (cfgs.map (fun c => mkResult c (env c.log_file) false now))) ∧
    (∀ (c : CronJobConfig) (cs : List CronJobConfig) (env : String → FileState)
       (a : String) (act : List String) (now : Int),
       monitor_jobs (c :: cs) env (a :: act) now =
         .error "AttributeError: dict object has no attribute name") ∧
    (∀ (cfgs : List CronJobConfig) (env env2 : String → FileState) (active : List String)
       (now : Int) (i : Nat) (c : CronJobConfig) (l1 l2 : List MonitorResult),
       cfgs[i]? = some c → env c.log_file = env2 c.log_file →
       monitor_jobs cfgs env active now = .ok l1 →
       monitor_jobs cfgs env2 active now = .ok l2 →
       l1[i]? = l2[i]?) := by
  refine ⟨?_, fun cfg e now => rfl, check_scan_error, monitor_jobs_no_active,
    monitor_jobs_active_abort, ?_⟩
  · intro cfg fs now
    cases fs with
    | missing => exact List.mem_cons_of_mem _ (List.mem_cons_of_mem _ (List.mem_cons_self _ _))
    | unreadable e =>
      exact List.mem_cons_of_mem _ (List.mem_cons_of_mem _ (List.mem_cons_self _ _))
    | readable lines =>
      cases hsc : scanOf cfg lines now with
      | error c =>
        rw [check_scan_error cfg lines now c hsc]
        exact List.mem_cons_of_mem _ (List.mem_cons_of_mem _ (List.mem_cons_self _ _))
      | ok st =>
        rw [check_readable cfg lines now st hsc]
        unfold verdictOf
        split
        · exact List.mem_cons_of_mem _ (List.mem_cons_self _ _)
        · split
          · exact List.mem_cons_of_mem _ (List.mem_cons_of_mem _ (List.mem_cons_self _ _))
          · split
            · exact List.mem_cons_of_mem _ (List.mem_cons_self _ _)
            · split
              · exact List.mem_cons_of_mem _ (List.mem_cons_self _ _)
              · exact List.mem_cons_self _ _
        · split
          · exact List.mem_cons_of_mem _ (List.mem_cons_of_mem _ (List.mem_cons_self _ _))
          · exact List.mem_cons_of_mem _ (List.mem_cons_of_mem _
              (List.mem_cons_of_mem _ (List.mem_cons_self _ _)))
  · intro cfgs env env2 active now i c l1 l2 hget hagree h1 h2
    cases active with
    | nil =>
      rw [monitor_jobs_no_active] at h1 h2
      injection h1 with e1
      injection h2 with e2
      subst e1
      subst e2
      simp only [List.getElem?_map, hget, Option.map_some']
      rw [mkResult, mkResult, hagree]
    | cons a act =>
      cases cfgs with
      | nil =>
        injection h1 with e1
        injection h2 with e2
        subst e1
        subst e2
        rfl
      | cons c0 cs =>
        rw [monitor_jobs_active_abort] at h1
        exact Except.noConfusion h1

/-- C9 witness: a regex-matched but calendar-invalid timestamp aborts
the scan and surfaces as the Log check failed error, and for two
completing batch runs whose filesystems agree on the job's own log
file, the job's record comes out the same although the filesystems
differ elsewhere. -/
theorem cronC9_witness :
    check_job_logs cfgB (.readable [logBadTs]) now0 =
      ⟨"error", "Log check failed: invalid time data"⟩ ∧
    [mkResult cfgB FileState.missing false now0][0]? =
      [mkResult cfgB FileState.missing false now0][0]? :=
  ⟨cronC9_totality.2.2.1 cfgB [logBadTs] now0 "invalid time data" rfl,
   cronC9_totality.2.2.2.2.2 [cfgB] (fun _ => FileState.missing)
     (fun p => if p = "backup.log" then FileState.missing else FileState.readable [])
     [] now0 0 cfgB
     [mkResult cfgB FileState.missing false now0]
     [mkResult cfgB FileState.missing false now0]
     rfl rfl rfl rfl⟩

/-- C10: an in-window, pattern-matching, timestamped line containing
both the start keyword and an end keyword is recorded as a start event
only: the start field is set and the end field and output flag are
untouched, because the start test is checked first and the end test
lives in the else branch. -/
theorem cronC10_precedence (cfg : CronJobConfig) (now : Int) (st : ScanState) (l : String)
    (ts : Int)
    (hp : sContains l cfg.pattern = true) (ht : extractTs l = .ok ts)
    (hw : now - ts ≤ 86400)
    (hstart : sContains (pyLowerS l) "started" = true)
    (hend : (sContains (pyLowerS l) "completed" || sContains (pyLowerS l) "failed") = true) :
    stepState (scanStep cfg now st l) =
      some { st with line := some l, job_start := some ts } := by
  rw [stepState_inWindow cfg now st l ts hp ht hw, recordEvent_start_all cfg _ l ts hstart]

/-- C10 witness: the restarted and completed line is recorded as a
start only, and end to end a log holding just that line reports the
job as in progress rather than completed. -/
theorem cronC10_witness :
    stepState (scanStep cfgB now0 initScan logRestart) =
      some { initScan with line := some logRestart, job_start := some e1000 } ∧
    check_job_logs cfgB (.readable [logRestart]) now0 =
      ⟨"running", "In progress for 10.0 minutes"⟩ :=
  ⟨cronC10_precedence cfgB now0 initScan logRestart e1000 (by decide) (by decide) (by decide)
      (by decide) (by decide), by decide⟩
